import Mathlib

/-!
Shallow embedding of the mqspeak update pipeline (mqspeak/collecting.py,
mqspeak/updating.py, mqspeak/sending.py, mqspeak/config.py) and proofs of the
behavioural claims about it.

Conventions of the embedding:
* Python dicts keyed by `DataIdentifier` become association lists
  `List (DataIdentifier × Option β)`; dict insertion order is list order, and a
  key assignment rewrites the stored value in place.
* Python `datetime` values become an integer timeline (`Int`); `timedelta`
  comparisons become integer comparisons.
* A decoded MQTT payload string is modelled by `Payload`: `Payload.num q` is a
  string that Python `float()` parses as the rational `q`, `Payload.raw s` is a
  string on which `float()` raises `ValueError`.
* Methods that may raise return `Except`; a method that raises before mutating
  leaves the modelled state unchanged in the caller.
* Locks, threads and logging calls are effect-free at this level of modelling
  and are elided; log output is not part of any claim proved here.
-/

namespace Mqspeak

/-- mqspeak/data.py `DataIdentifier`: (broker, topic) pair, equality by
components.  Brokers are identified by name. -/
structure DataIdentifier where
  broker : String
  topic : String
deriving DecidableEq, Repr

/-- A decoded MQTT payload string, classified by whether Python `float()`
parses it.  `num q`: a numeric string with value `q`; `raw s`: a string on
which `float()` raises `ValueError`. -/
inductive Payload where
  | num (q : ℚ)
  | raw (s : String)
deriving DecidableEq, Repr

/-- Python `float(value)` on a payload: the parsed number, or `none` when the
call raises `ValueError`. -/
def pyFloat : Payload → Option ℚ
  | .num q => some q
  | .raw _ => none

/-- mqspeak/collecting.py `TopicException`: update-buffer related error raised
on an illegal topic update. -/
inductive TopicException where
  | illegalTopicUpdate (dataIdentifier : DataIdentifier)
deriving DecidableEq, Repr

/-- The `{DataIdentifier: value}` dict `dataMapping` of a buffer; `none` is
Python `None`, `β` the discipline-specific cell contents. -/
abbrev DataMapping (β : Type) := List (DataIdentifier × Option β)

/-- Python dict assignment `dataMapping[id] = f(dataMapping[id])` for a key
`id` already present: every entry for `id` is rewritten, order preserved. -/
def setCell {β : Type} (dataIdentifier : DataIdentifier) (f : Option β → Option β)
    (m : DataMapping β) : DataMapping β :=
  m.map (fun p => if p.1 = dataIdentifier then (p.1, f p.2) else p)

/-- mqspeak/collecting.py `BaseUpdateBuffer`: declared identifiers, the
`dataMapping` dict and the `hasData` flag.  The discipline-specific
`handleUpdateReceivedData` of the subclass is passed explicitly to the
operations that dispatch on it. -/
structure UpdateBuffer (β : Type) where
  dataIdentifiers : List DataIdentifier
  dataMapping : DataMapping β
  hasData : Bool
deriving DecidableEq, Repr

namespace UpdateBuffer

/-- Body of `BaseUpdateBuffer.reset`: rebuild `dataMapping` with `None` for
every declared identifier and clear `hasData`. -/
def reset {β : Type} (b : UpdateBuffer β) : UpdateBuffer β :=
  { b with
    dataMapping := b.dataIdentifiers.map (fun dataIdentifier => (dataIdentifier, none))
    hasData := false }

/-- Source `BaseUpdateBuffer.__init__(dataIdentifiers)`: store the identifiers and
call `reset()`. -/
def init {β : Type} (dataIdentifiers : List DataIdentifier) : UpdateBuffer β :=
  reset { dataIdentifiers := dataIdentifiers, dataMapping := [], hasData := false }

/-- Source `BaseUpdateBuffer.isComplete`: `not any(x is None for x in
self.dataMapping.values())`. -/
def isComplete {β : Type} (b : UpdateBuffer β) : Bool :=
  ! b.dataMapping.any (fun p => p.2.isNone)

/-- Source `BaseUpdateBuffer.isUpdateRelevant`: `dataIdentifier in self.dataMapping`. -/
def isUpdateRelevant {β : Type} (b : UpdateBuffer β) (dataIdentifier : DataIdentifier) : Bool :=
  b.dataMapping.any (fun p => p.1 = dataIdentifier)

/-- Source `BaseUpdateBuffer.hasAnyData`: return the `hasData` flag. -/
def hasAnyData {β : Type} (b : UpdateBuffer β) : Bool :=
  b.hasData

/-- Source `BaseUpdateBuffer.getMissingDataIdentifiers`: identifiers whose stored
value is `None`, in mapping order. -/
def getMissingDataIdentifiers {β : Type} (b : UpdateBuffer β) : List DataIdentifier :=
  (b.dataMapping.filter (fun p => p.2.isNone)).map Prod.fst

/-- Type of the `handleUpdateReceivedData` override of a discipline, acting on the `dataMapping`
dict. -/
abbrev Handle (β : Type) := DataIdentifier → Payload → DataMapping β → DataMapping β

/-- Source `BaseUpdateBuffer.updateReceivedData`: raise `TopicException` when the
identifier is not a key of `dataMapping`, otherwise run the
`handleUpdateReceivedData` override of the discipline and set `hasData = True`. -/
def updateReceivedData {β : Type} (handle : Handle β) (dataIdentifier : DataIdentifier)
    (value : Payload) (b : UpdateBuffer β) : Except TopicException (UpdateBuffer β) :=
  if b.isUpdateRelevant dataIdentifier then
    .ok { b with dataMapping := handle dataIdentifier value b.dataMapping, hasData := true }
  else
    .error (.illegalTopicUpdate dataIdentifier)

/-- View of `updateReceivedData` from the calling side: the raise happens
before any mutation, so on error the buffer object is unchanged and the
exception propagates alongside it. -/
def updateReceivedDataRun {β : Type} (handle : Handle β) (dataIdentifier : DataIdentifier)
    (value : Payload) (b : UpdateBuffer β) : UpdateBuffer β × Option TopicException :=
  match updateReceivedData handle dataIdentifier value b with
  | .ok b' => (b', none)
  | .error e => (b, some e)

end UpdateBuffer

/-- Source `LastValueUpdateBuffer.handleUpdateReceivedData`: overwrite the cell with
the new value. -/
def lastValueHandle : UpdateBuffer.Handle Payload :=
  fun dataIdentifier value m => setCell dataIdentifier (fun _ => some value) m

/-- Source `LastValueUpdateBuffer.getData`: return the `dataMapping` dict itself. -/
def lastValueGetData (b : UpdateBuffer Payload) : DataMapping Payload :=
  b.dataMapping

/-- Source `AverageUpdateBuffer.handleUpdateReceivedData`: `float(value)`; on
`ValueError` log and leave the mapping unchanged; otherwise replace a `None`
cell by an empty list and append the parsed number. -/
def averageHandle : UpdateBuffer.Handle (List ℚ) :=
  fun dataIdentifier value m =>
    match pyFloat value with
    | none => m
    | some q => setCell dataIdentifier (fun c => some ((c.getD []) ++ [q])) m

/-- Source `AverageUpdateBuffer.getData`: per identifier, the arithmetic mean
`float(sum(valueList)) / len(valueList)` of the stored samples, `None` cells
staying `None`.  (A stored list is never empty in the source, so the division
is by a positive count.) -/
def averageGetData (b : UpdateBuffer (List ℚ)) : DataMapping ℚ :=
  b.dataMapping.map (fun p => (p.1, p.2.map (fun l => l.sum / (l.length : ℚ))))

/-- Source `ChangeValueBuffer.handleUpdateReceivedData`: replace a `None` cell by an
empty deque, then append the value only when `len(deque) > 1` and the last
element differs from the value. -/
def changeValueHandle : UpdateBuffer.Handle (List Payload) :=
  fun dataIdentifier value m =>
    setCell dataIdentifier
      (fun c =>
        let q := c.getD []
        if q.length > 1 ∧ q.getLast? ≠ some value then some (q ++ [value]) else some q)
      m

/-- Source `ChangeValueBuffer.getData`: per identifier, the head of the deque when
`len > 1`, otherwise `None`. -/
def changeValueGetData (b : UpdateBuffer (List Payload)) : DataMapping Payload :=
  b.dataMapping.map (fun p =>
    (p.1, match p.2 with
          | some q => if q.length > 1 then q.head? else none
          | none => none))

/-- Dict lookup `dataMapping[id]`: the value of the first entry for the key
(keys are unique in a Python dict, and the embedding only ever rewrites all
entries of a key together). -/
def findValue {β : Type} (m : List (DataIdentifier × β)) (dataIdentifier : DataIdentifier) :
    Option β :=
  match m with
  | [] => none
  | p :: rest => if p.1 = dataIdentifier then some p.2 else findValue rest dataIdentifier

/-- mqspeak/channel.py `ChannelType`. -/
inductive ChannelType where
  | thingspeak
  | phant
deriving DecidableEq, Repr

/-- mqspeak/channel.py `Channel`: outbound destination; `waiting` is the
optional wait interval in seconds (`None` when waiting is disabled). -/
structure Channel where
  channelType : ChannelType
  name : String
  channelID : Option String
  apiKey : String
  waiting : Option Int
deriving DecidableEq, Repr

/-- Source `Channel.hasWaiting`: `self.waiting is not None`. -/
def Channel.hasWaiting (c : Channel) : Bool :=
  c.waiting.isSome

/-- mqspeak/data.py `Measurement`: a `{DataIdentifier: value}` snapshot with a
timestamp. -/
structure Measurement where
  fields : DataMapping Payload
  time : Int
deriving DecidableEq, Repr

/-- mqspeak/sending.py `UpdateResult`: outcome of one HTTP attempt. -/
structure UpdateResult where
  success : Bool
deriving DecidableEq, Repr

/-- Source `UpdateResult.wasSuccessful`. -/
def UpdateResult.wasSuccessful (r : UpdateResult) : Bool :=
  r.success

/-- Which `resolveUpdateResult` override an updater carries.  `blackout` is
`BlackoutUpdater.resolveUpdateResult` (a bare `pass`); `synchronous` is
`SynchronousUpdater.resolveUpdateResult` (schedule the next update job).
`OnChangeUpdater` overrides it with an unconditional raise, but no
`OnChangeUpdater` can ever be constructed (see `constructUpdater`). -/
inductive Resolver where
  | blackout
  | synchronous
deriving DecidableEq, Repr

/-- Python `datetime.datetime.min`, placed at the origin of the integer
timeline; no claim proved here depends on its concrete value. -/
def pyDatetimeMin : Int := 0

/-- mqspeak/updating.py `BaseUpdater` together with the
`SynchronousUpdater` fields layered on top of it.  `executors` counts the live
`SchedulerExecutor` objects of the `executors` set.  Locks are elided; every
concrete updater in the source builds a `LastValueUpdateBuffer`, hence
`UpdateBuffer Payload`. -/
structure Updater where
  channel : Channel
  updateInterval : Int
  isUpdateRunning : Bool
  lastUpdated : Int
  updateBuffer : UpdateBuffer Payload
  resolver : Resolver
  isUpdateScheduled : Bool
  executors : ℕ
deriving DecidableEq, Repr

/-- Source `BaseUpdater.__init__` (and `SynchronousUpdater.__init__` for the
scheduling fields): no update running, `lastUpdated = datetime.min`, nothing
scheduled, no executors. -/
def baseUpdaterInit (channel : Channel) (updateInterval : Int)
    (updateBuffer : UpdateBuffer Payload) (resolver : Resolver) : Updater :=
  { channel := channel
    updateInterval := updateInterval
    isUpdateRunning := false
    lastUpdated := pyDatetimeMin
    updateBuffer := updateBuffer
    resolver := resolver
    isUpdateScheduled := false
    executors := 0 }

/-- Source `SynchronousUpdater.scheduleUpdateJob`: set `isUpdateScheduled` and
spawn a new `SchedulerExecutor`, adding it to the executor set. -/
def scheduleUpdateJob (u : Updater) : Updater :=
  { u with isUpdateScheduled := true, executors := u.executors + 1 }

/-- Dispatch of the `resolveUpdateResult` override:
`BlackoutUpdater.resolveUpdateResult` is `pass`;
`SynchronousUpdater.resolveUpdateResult` calls `scheduleUpdateJob` under the
schedule lock. -/
def resolveUpdateResult (u : Updater) : Updater :=
  match u.resolver with
  | .blackout => u
  | .synchronous => scheduleUpdateJob u

/-- Source `BaseUpdater.notifyUpdateResult` (updating.py:211): under the update
lock, clear `isUpdateRunning`; when the result was successful, call
`restartUpdateIntervalCounter` (`lastUpdated = datetime.now()`, embedded as the
`now` argument); then run the `resolveUpdateResult` override. -/
def notifyUpdateResult (now : Int) (result : UpdateResult) (u : Updater) : Updater :=
  let u1 := { u with isUpdateRunning := false }
  let u2 := if result.wasSuccessful then { u1 with lastUpdated := now } else u1
  resolveUpdateResult u2

/-- Source `BaseUpdater.notifyUpdateWaiting` (updating.py:280): the entire body
is `print(self.updateBuffer)` — a console print.  Nothing is mutated and no
measurement is handed to the dispatcher; the returned list is the (empty) list
of measurements the call emits. -/
def notifyUpdateWaiting (u : Updater) : Updater × List Measurement :=
  (u, [])

/-- Source `ChannnelUpdateSupervisor.onNewData` (updating.py:123): offer the
event to every updater of `channelUpdaterMapping.values()`.
`Updater.isUpdateRelevant` and `Updater.updateReceivedData` (updating.py:261,
270) delegate directly to the buffer of the updater, so the supervisor is
modelled on those buffers.  The relevance guard makes the exception branch of
`updateReceivedData` unreachable here. -/
def onNewData {β : Type} (handle : UpdateBuffer.Handle β) (updaters : List (UpdateBuffer β))
    (dataIdentifier : DataIdentifier) (data : Payload) : List (UpdateBuffer β) :=
  updaters.map (fun u =>
    if u.isUpdateRelevant dataIdentifier then
      match u.updateReceivedData handle dataIdentifier data with
      | .ok u2 => u2
      | .error _ => u
    else u)

/-- Offer a sequence of events to one buffer, as the supervisor loop does: each
accepted event updates the buffer, a `TopicException` leaves it unchanged. -/
def foldAccept {β : Type} (handle : UpdateBuffer.Handle β) (b : UpdateBuffer β)
    (events : List (DataIdentifier × Payload)) : UpdateBuffer β :=
  events.foldl (fun b e => (UpdateBuffer.updateReceivedDataRun handle e.1 e.2 b).1) b

/-- mqspeak/config.py `ConfigException`, restricted to the case raised by
`createUpdaterFactory`. -/
inductive ConfigException where
  | unknownUpdateType (updaterName : String)
deriving DecidableEq, Repr

/-- Python runtime errors raised while constructing an updater. -/
inductive PyError where
  | nameError (undefinedName : String)
  | typeError (message : String)
deriving DecidableEq, Repr

/-- The updater class selected by `ProgramConfig.createUpdaterFactory`. -/
inductive UpdaterCls where
  | blackoutUpdater
  | bufferedUpdater
  | averageUpdater
  | onChangeUpdater
deriving DecidableEq, Repr

/-- Source `ProgramConfig.createUpdaterFactory` (config.py:216): select the
updater class by name, raising `ConfigException` on an unknown name; the
constructor arguments are `(updateRate,)`. -/
def createUpdaterFactory (updaterName : String) (updateRate : Int) :
    Except ConfigException (UpdaterCls × Int) :=
  if updaterName = "blackout" then .ok (.blackoutUpdater, updateRate)
  else if updaterName = "buffered" then .ok (.bufferedUpdater, updateRate)
  else if updaterName = "average" then .ok (.averageUpdater, updateRate)
  else if updaterName = "onchange" then .ok (.onChangeUpdater, updateRate)
  else .error (.unknownUpdateType updaterName)

/-- The per-channel `{DataIdentifier: fieldName}` update mapping built by
`UpdateMappingFactory.build`. -/
abbrev UpdateMapping := List (DataIdentifier × String)

/-- Source `ChannelUpdaterFactory.build` (config.py:397): call
`updaterCls(channel, updateMapping, updateRate)`.
`BlackoutUpdater.__init__` (updating.py:291) executes
`BaseUpdate.__init__(...)` where `BaseUpdate` is an undefined global name, so
the call raises `NameError` before constructing anything.
`OnChangeUpdater.__init__` (updating.py:577) accepts only `(self, channel)` but
is called with three positional arguments, so the call raises `TypeError`
before its body (itself an unconditional raise) runs.
`BufferedUpdater` and `AverageUpdater` construct a `SynchronousUpdater` with a
`LastValueUpdateBuffer` over the keys of the update mapping. -/
def buildUpdater (cls : UpdaterCls) (channel : Channel) (updateMapping : UpdateMapping)
    (updateRate : Int) : Except PyError Updater :=
  match cls with
  | .blackoutUpdater => .error (.nameError "BaseUpdate")
  | .bufferedUpdater =>
      .ok (baseUpdaterInit channel updateRate
        (UpdateBuffer.init (updateMapping.map Prod.fst)) .synchronous)
  | .averageUpdater =>
      .ok (baseUpdaterInit channel updateRate
        (UpdateBuffer.init (updateMapping.map Prod.fst)) .synchronous)
  | .onChangeUpdater =>
      .error (.typeError "OnChangeUpdater.__init__ takes 2 positional arguments but 4 were given")

/-- Errors surfaced while building the updater for a configured channel. -/
inductive BuildError where
  | config (e : ConfigException)
  | py (e : PyError)
deriving DecidableEq, Repr

/-- Construction of the updater of a channel as `ProgramConfig.parse` performs
it: `createUpdaterFactory` selects the class, then `ChannelUpdaterFactory.build`
calls its constructor. -/
def constructUpdater (updaterName : String) (updateRate : Int) (channel : Channel)
    (updateMapping : UpdateMapping) : Except BuildError Updater :=
  match createUpdaterFactory updaterName updateRate with
  | .error e => .error (.config e)
  | .ok (cls, rate) =>
      match buildUpdater cls channel updateMapping rate with
      | .error e => .error (.py e)
      | .ok u => .ok u

/-- Characters Python `int()` strips from either end of its argument. -/
def pyWhitespace (c : Char) : Bool :=
  c = ' ' || c = '\t' || c = '\n' || c = '\r' || c = '\x0b' || c = '\x0c'

/-- Value of a nonempty string of decimal digits. -/
def digitsToNat (cs : List Char) : ℕ :=
  cs.foldl (fun acc c => 10 * acc + (c.toNat - 48)) 0

/-- Python `int(data)` applied to the decoded response string, on the character
list of the string: after stripping surrounding whitespace, an optional sign
followed by one or more decimal digits; any other shape raises `ValueError`
(`none` here).  (Python additionally accepts underscores between digits; no
claim depends on that.) -/
def pyParseIntChars (cs : List Char) : Option ℤ :=
  let t := ((cs.dropWhile pyWhitespace).reverse.dropWhile pyWhitespace).reverse
  match t with
  | [] => none
  | c :: rest =>
      if c = '-' then
        if rest ≠ [] ∧ rest.all Char.isDigit then some (-(digitsToNat rest : ℤ)) else none
      else if c = '+' then
        if rest ≠ [] ∧ rest.all Char.isDigit then some ((digitsToNat rest : ℤ)) else none
      else if (c :: rest).all Char.isDigit then some ((digitsToNat (c :: rest) : ℤ))
      else none

/-- Python `int(data)` on the decoded response string. -/
def pyParseInt (s : String) : Option ℤ :=
  pyParseIntChars s.data

/-- Source `ThingSpeakSender.checkSendResult` (sending.py:219): `False` unless
the HTTP status is 200; then `entries = int(data)` — `False` when the parse
raises `ValueError` or when `entries == 0`, `True` otherwise. -/
def checkSendResult (status : ℕ) (reason : String) (data : String) : Bool :=
  if status ≠ 200 then false
  else
    match pyParseInt data with
    | none => false
    | some entries => if entries = 0 then false else true

/-- A Python exception raised inside the try-block of `BaseSender.send`
(transport errors, decode errors, errors inside the check). -/
inductive PyExc where
  | exc (message : String)
deriving DecidableEq, Repr

/-- The try-block of `BaseSender.send` (sending.py:149): fetch the HTTP
response, decode the body, check the result.  Each stage is passed as an
outcome or function so that an exception at any point of the block is
representable. -/
def sendAttempt (fetchResult : Except PyExc (ℕ × String × String))
    (decode : String → Except PyExc String)
    (check : ℕ → String → String → Except PyExc Bool) : Except PyExc Bool := do
  let (status, reason, responseBytes) ← fetchResult
  let response ← decode responseBytes
  check status reason response

/-- Source `BaseSender.send` (sending.py:141): `success = False`; run the
try-block, storing its result in `success`; `except BaseException` logs and
swallows any exception; the finally-block returns `UpdateResult(success)`. -/
def send (fetchResult : Except PyExc (ℕ × String × String))
    (decode : String → Except PyExc String)
    (check : ℕ → String → String → Except PyExc Bool) : UpdateResult :=
  match sendAttempt fetchResult decode check with
  | .ok success => { success := success }
  | .error _ => { success := false }

/-- Source `SendRunner.__call__` (sending.py:305) composed with
`ChannelUpdateDispatcher.sendJobDone` (sending.py:75): run `send`, pair the
result with the updater, and deliver it through
`updater.notifyUpdateResult(result)`.  Returns the notified updater together
with the delivered result. -/
def sendRunner (updater : Updater) (now : Int)
    (fetchResult : Except PyExc (ℕ × String × String))
    (decode : String → Except PyExc String)
    (check : ℕ → String → String → Except PyExc Bool) : Updater × UpdateResult :=
  let result := send fetchResult decode check
  (notifyUpdateResult now result updater, result)

/-! Helper lemmas about dict lookup, relevance and the buffer operations. -/

theorem findValue_map {β γ : Type} (g : Option β → Option γ) (m : DataMapping β)
    (dataIdentifier : DataIdentifier) :
    findValue (m.map (fun p => (p.1, g p.2))) dataIdentifier
      = (findValue m dataIdentifier).map g := by
  induction m with
  | nil => rfl
  | cons p rest ih =>
      by_cases h : p.1 = dataIdentifier <;> simp [findValue, h, ih]

theorem findValue_setCell_self {β : Type} (dataIdentifier : DataIdentifier)
    (f : Option β → Option β) (m : DataMapping β) :
    findValue (setCell dataIdentifier f m) dataIdentifier
      = (findValue m dataIdentifier).map f := by
  induction m with
  | nil => rfl
  | cons p rest ih =>
      by_cases h : p.1 = dataIdentifier <;> simp [findValue, setCell, h, ih] <;>
        simpa [setCell] using ih

theorem findValue_setCell_ne {β : Type} (other dataIdentifier : DataIdentifier)
    (hne : other ≠ dataIdentifier) (f : Option β → Option β) (m : DataMapping β) :
    findValue (setCell other f m) dataIdentifier = findValue m dataIdentifier := by
  induction m with
  | nil => rfl
  | cons p rest ih =>
      by_cases h : p.1 = other
      · simp [findValue, setCell, h, hne, ih]
        simpa [setCell] using ih
      · by_cases h2 : p.1 = dataIdentifier
        · have hdo : dataIdentifier ≠ other := fun hh => hne hh.symm
          simp [findValue, setCell, h, h2, hdo]
        · simp [findValue, setCell, h, h2]
          simpa [setCell] using ih

theorem isUpdateRelevant_iff_findValue {β : Type} (b : UpdateBuffer β)
    (dataIdentifier : DataIdentifier) :
    b.isUpdateRelevant dataIdentifier = true
      ↔ (findValue b.dataMapping dataIdentifier).isSome := by
  unfold UpdateBuffer.isUpdateRelevant
  induction b.dataMapping with
  | nil => simp [findValue]
  | cons p rest ih =>
      by_cases h : p.1 = dataIdentifier <;> simp [findValue, h, ih]

theorem isUpdateRelevant_iff_mem {β : Type} (b : UpdateBuffer β)
    (dataIdentifier : DataIdentifier) :
    b.isUpdateRelevant dataIdentifier = true
      ↔ dataIdentifier ∈ b.dataMapping.map Prod.fst := by
  unfold UpdateBuffer.isUpdateRelevant
  simp [List.any_eq_true, List.mem_map]

theorem findValue_init_mem {β : Type} (ids : List DataIdentifier)
    (dataIdentifier : DataIdentifier) (h : dataIdentifier ∈ ids) :
    findValue (UpdateBuffer.init ids : UpdateBuffer β).dataMapping dataIdentifier
      = some none := by
  unfold UpdateBuffer.init UpdateBuffer.reset
  induction ids with
  | nil => cases h
  | cons a rest ih =>
      by_cases ha : a = dataIdentifier
      · simp [findValue, ha]
      · rcases List.mem_cons.mp h with h1 | h2
        · exact absurd h1.symm ha
        · simpa [findValue, ha] using ih h2

theorem updateReceivedDataRun_dataIdentifiers {β : Type} (handle : UpdateBuffer.Handle β)
    (dataIdentifier : DataIdentifier) (value : Payload) (b : UpdateBuffer β) :
    (UpdateBuffer.updateReceivedDataRun handle dataIdentifier value b).1.dataIdentifiers
      = b.dataIdentifiers := by
  unfold UpdateBuffer.updateReceivedDataRun UpdateBuffer.updateReceivedData
  by_cases h : b.isUpdateRelevant dataIdentifier <;> simp [h]

theorem foldAccept_dataIdentifiers {β : Type} (handle : UpdateBuffer.Handle β)
    (events : List (DataIdentifier × Payload)) (b : UpdateBuffer β) :
    (foldAccept handle b events).dataIdentifiers = b.dataIdentifiers := by
  induction events generalizing b with
  | nil => rfl
  | cons e tl ih =>
      simpa [foldAccept, updateReceivedDataRun_dataIdentifiers] using
        (ih ((UpdateBuffer.updateReceivedDataRun handle e.1 e.2 b).1)).trans
          (updateReceivedDataRun_dataIdentifiers handle e.1 e.2 b)

/-! Concrete inputs used by the scenario evaluations and witnesses. -/

/-- A first data identifier, field A of the scenarios. -/
def dataIdA : DataIdentifier := { broker := "mqttbroker", topic := "sensor/A" }

/-- A second data identifier, field B of the scenarios. -/
def dataIdB : DataIdentifier := { broker := "mqttbroker", topic := "sensor/B" }

/-- Scenario D channel: a ThingSpeak channel with `waiting` = 3 s. -/
def scenarioDChannel : Channel :=
  { channelType := .thingspeak
    name := "room"
    channelID := none
    apiKey := "WRITEKEY"
    waiting := some 3 }

/-- Scenario D updater state: fields {A, B}, update interval 10 s, only the
value of A has arrived. -/
def scenarioDUpdater : Updater :=
  baseUpdaterInit scenarioDChannel 10
    ((UpdateBuffer.updateReceivedDataRun lastValueHandle dataIdA (.num 21)
      (UpdateBuffer.init [dataIdA, dataIdB])).1)
    .synchronous

/-- C1.  The claim: for an updater whose channel has `waiting` configured, when
`notifyUpdateWaiting()` runs with no upload in flight, the waiting deadline
exceeded and partial data buffered, the updater logs the missing identifiers,
emits the incomplete measurement and resets the buffer.  The code contradicts
it: `BaseUpdater.notifyUpdateWaiting` (updating.py:280) is only
`print(self.updateBuffer)` — no `waitingStarted` state exists anywhere in the
class, nothing is emitted and nothing is reset.  Evaluation at the Scenario D
input (fields {A, B}, waiting = 3 s, only A arrived, no upload running): all
preconditions of the claim hold, yet the call returns the updater unchanged,
with the partial data still buffered, and emits no measurement. -/
theorem notifyUpdateWaiting_ignores_expired_waiting :
    scenarioDUpdater.channel.hasWaiting = true ∧
    scenarioDUpdater.isUpdateRunning = false ∧
    scenarioDUpdater.updateBuffer.hasAnyData = true ∧
    scenarioDUpdater.updateBuffer.getMissingDataIdentifiers = [dataIdB] ∧
    notifyUpdateWaiting scenarioDUpdater = (scenarioDUpdater, []) := by
  refine ⟨rfl, rfl, by decide, by decide, rfl⟩

/-- C2: for every updater and result, after `notifyUpdateResult(result)` the
`isUpdateRunning` flag is cleared, and `lastUpdated` is the notification time
exactly when the result was successful, otherwise its previous value. -/
theorem notifyUpdateResult_clears_running_and_stamps (u : Updater) (now : Int)
    (result : UpdateResult) :
    (notifyUpdateResult now result u).isUpdateRunning = false ∧
    (notifyUpdateResult now result u).lastUpdated
      = (if result.success then now else u.lastUpdated) := by
  cases result with
  | mk success =>
      cases hres : u.resolver <;> cases success <;>
        simp [notifyUpdateResult, resolveUpdateResult, scheduleUpdateJob,
          UpdateResult.wasSuccessful, hres]

/-- C3: for every channel configured with UpdateType `blackout` or `onchange`,
building the updater through the factory chain raises:
`BlackoutUpdater.__init__` hits the undefined name `BaseUpdate` (NameError) and
`OnChangeUpdater.__init__` does not even accept the arguments the factory
passes (TypeError), so neither discipline can ever be instantiated. -/
theorem blackout_onchange_never_instantiable (updateRate : Int) (channel : Channel)
    (updateMapping : UpdateMapping) :
    constructUpdater "blackout" updateRate channel updateMapping
      = .error (.py (.nameError "BaseUpdate")) ∧
    constructUpdater "onchange" updateRate channel updateMapping
      = .error (.py (.typeError
          "OnChangeUpdater.__init__ takes 2 positional arguments but 4 were given")) := by
  exact ⟨rfl, rfl⟩

/-- C5 counterexample: the claim says `checkSendResult` succeeds only when the
body parses to an integer strictly greater than 0, but on HTTP 200 with body
"-1" the code parses the integer -1, which is not 0, and returns `True`. -/
theorem checkSendResult_accepts_negative_entries :
    checkSendResult 200 "OK" "-1" = true ∧
    pyParseInt "-1" = some (-1) ∧
    ¬ (0 < (-1 : ℤ)) := by
  refine ⟨by decide, by decide, by decide⟩

/-- C5 as amended: `checkSendResult` returns `True` iff the status is HTTP 200
and the body parses to an integer different from 0 (so the body "0" still
yields `False`, but any nonzero integer — negative ones included — succeeds). -/
theorem checkSendResult_iff_nonzero (status : ℕ) (reason : String) (data : String) :
    checkSendResult status reason data = true
      ↔ (status = 200 ∧ ∃ n : ℤ, pyParseInt data = some n ∧ n ≠ 0) := by
  unfold checkSendResult
  by_cases h : status = 200
  · subst h
    simp only [ne_eq, not_true_eq_false, if_false, true_and]
    cases hp : pyParseInt data with
    | none => simp
    | some n =>
        by_cases hn : n = 0 <;> simp [hn]
  · simp [h]

/-- The Scenario F event prefix: values "1", "1", "2" arriving for the single
declared identifier. -/
def scenarioFEvents : List (DataIdentifier × Payload) :=
  [(dataIdA, .num 1), (dataIdA, .num 1), (dataIdA, .num 2)]

/-- C6.  The claim: `ChangeValueBuffer` queues a value iff it differs from the
last retained one, and in particular the first value received for an
identifier is queued.  The code contradicts it:
`ChangeValueBuffer.handleUpdateReceivedData` (collecting.py:325) appends only
when `len(deque) > 1`, and since every deque starts empty its length never
reaches 2, so no value is ever queued.  Evaluation: after the first value the
queue is still empty; after the Scenario F prefix "1", "1", "2" the queue is
still empty and `getData` yields `None` for the identifier. -/
theorem changeValueBuffer_never_queues :
    findValue ((foldAccept changeValueHandle (UpdateBuffer.init [dataIdA])
        [(dataIdA, Payload.num 1)]).dataMapping) dataIdA = some (some []) ∧
    findValue ((foldAccept changeValueHandle (UpdateBuffer.init [dataIdA])
        scenarioFEvents).dataMapping) dataIdA = some (some []) ∧
    findValue (changeValueGetData (foldAccept changeValueHandle
        (UpdateBuffer.init [dataIdA]) scenarioFEvents)) dataIdA = some none := by
  refine ⟨by decide, by decide, by decide⟩

/-- C4: the supervisor offers each incoming event to every updater; the
updater at position `i` ends up updated through `updateReceivedData` exactly
when the declared identifier set of its buffer contains the identifier of the
event, and is left unchanged otherwise. -/
theorem onNewData_routes_exactly {β : Type} (handle : UpdateBuffer.Handle β)
    (updaters : List (UpdateBuffer β)) (dataIdentifier : DataIdentifier) (data : Payload)
    (i : ℕ) (u : UpdateBuffer β) (hu : updaters[i]? = some u)
    (wf : u.dataMapping.map Prod.fst = u.dataIdentifiers) :
    (onNewData handle updaters dataIdentifier data)[i]?
      = some (if dataIdentifier ∈ u.dataIdentifiers
          then (UpdateBuffer.updateReceivedDataRun handle dataIdentifier data u).1
          else u) := by
  unfold onNewData
  rw [List.getElem?_map, hu]
  by_cases hrel : u.isUpdateRelevant dataIdentifier = true
  · have hmem : dataIdentifier ∈ u.dataIdentifiers := by
      rw [← wf]
      exact (isUpdateRelevant_iff_mem u dataIdentifier).mp hrel
    simp [hrel, hmem, UpdateBuffer.updateReceivedDataRun, UpdateBuffer.updateReceivedData]
  · have hmem : dataIdentifier ∉ u.dataIdentifiers := by
      rw [← wf]
      exact fun hm => hrel ((isUpdateRelevant_iff_mem u dataIdentifier).mpr hm)
    simp [hrel, hmem]

/-- Witness for C4: a supervisor with two updaters, fields {A} and {B}; the
event for A updates the first buffer; position 1 (declared set {B}) is left
unchanged. -/
theorem onNewData_routes_exactly_witness :
    (([UpdateBuffer.init [dataIdA], UpdateBuffer.init [dataIdB]]
        : List (UpdateBuffer Payload))[1]? = some (UpdateBuffer.init [dataIdB])) ∧
    ((UpdateBuffer.init [dataIdB] : UpdateBuffer Payload).dataMapping.map Prod.fst
      = (UpdateBuffer.init [dataIdB] : UpdateBuffer Payload).dataIdentifiers) ∧
    ((onNewData lastValueHandle [UpdateBuffer.init [dataIdA], UpdateBuffer.init [dataIdB]]
        dataIdA (.num 7))[1]?
      = some (if dataIdA ∈ (UpdateBuffer.init [dataIdB] : UpdateBuffer Payload).dataIdentifiers
          then (UpdateBuffer.updateReceivedDataRun lastValueHandle dataIdA (.num 7)
            (UpdateBuffer.init [dataIdB])).1
          else UpdateBuffer.init [dataIdB])) :=
  ⟨by decide, by decide,
    onNewData_routes_exactly lastValueHandle _ dataIdA (.num 7) 1 _ (by decide) (by decide)⟩

/-- C8: for every buffer (whatever its discipline handle), offering a value
raises `TopicException` exactly when the identifier is outside the declared
set, and in that case the buffer — its data mapping and its `hasData` flag —
is unchanged. -/
theorem updateReceivedData_topicException_iff {β : Type} (handle : UpdateBuffer.Handle β)
    (dataIdentifier : DataIdentifier) (value : Payload) (b : UpdateBuffer β)
    (wf : b.dataMapping.map Prod.fst = b.dataIdentifiers) :
    ((UpdateBuffer.updateReceivedDataRun handle dataIdentifier value b).2
        = some (.illegalTopicUpdate dataIdentifier)
      ↔ dataIdentifier ∉ b.dataIdentifiers) ∧
    (dataIdentifier ∉ b.dataIdentifiers →
      (UpdateBuffer.updateReceivedDataRun handle dataIdentifier value b).1 = b) := by
  unfold UpdateBuffer.updateReceivedDataRun UpdateBuffer.updateReceivedData
  by_cases hrel : b.isUpdateRelevant dataIdentifier = true
  · have hmem : dataIdentifier ∈ b.dataIdentifiers := by
      rw [← wf]
      exact (isUpdateRelevant_iff_mem b dataIdentifier).mp hrel
    simp [hrel, hmem]
  · have hmem : dataIdentifier ∉ b.dataIdentifiers := by
      rw [← wf]
      exact fun hm => hrel ((isUpdateRelevant_iff_mem b dataIdentifier).mpr hm)
    simp [hrel, hmem]

/-- Witness for C8: a buffer declaring only field A, offered a value for field
B: the call raises, and the buffer is unchanged. -/
theorem updateReceivedData_topicException_iff_witness :
    ((UpdateBuffer.init [dataIdA] : UpdateBuffer Payload).dataMapping.map Prod.fst
      = (UpdateBuffer.init [dataIdA] : UpdateBuffer Payload).dataIdentifiers) ∧
    (((UpdateBuffer.updateReceivedDataRun lastValueHandle dataIdB (.num 1)
          (UpdateBuffer.init [dataIdA])).2
        = some (.illegalTopicUpdate dataIdB)
      ↔ dataIdB ∉ (UpdateBuffer.init [dataIdA] : UpdateBuffer Payload).dataIdentifiers) ∧
    (dataIdB ∉ (UpdateBuffer.init [dataIdA] : UpdateBuffer Payload).dataIdentifiers →
      (UpdateBuffer.updateReceivedDataRun lastValueHandle dataIdB (.num 1)
          (UpdateBuffer.init [dataIdA])).1 = UpdateBuffer.init [dataIdA])) :=
  ⟨by decide,
    updateReceivedData_topicException_iff lastValueHandle dataIdB (.num 1) _ (by decide)⟩

/-- C9: for a buffer with a nonempty declared set, after any sequence of
offered values a `reset()` leaves `isComplete()` and `hasAnyData()` false.
(The `reset` embedded here is `BaseUpdateBuffer.reset`, the one
`LastValueUpdateBuffer` and `AverageUpdateBuffer` inherit.) -/
theorem reset_clears_completeness_and_data {β : Type} (handle : UpdateBuffer.Handle β)
    (ids : List DataIdentifier) (events : List (DataIdentifier × Payload))
    (hne : ids ≠ []) :
    (foldAccept handle (UpdateBuffer.init ids) events).reset.isComplete = false ∧
    (foldAccept handle (UpdateBuffer.init ids) events).reset.hasAnyData = false := by
  constructor
  · have hids : (foldAccept handle (UpdateBuffer.init ids) events).dataIdentifiers = ids := by
      simpa using foldAccept_dataIdentifiers handle events (UpdateBuffer.init ids)
    unfold UpdateBuffer.reset UpdateBuffer.isComplete
    rw [hids]
    cases ids with
    | nil => exact absurd rfl hne
    | cons a rest => simp
  · rfl

/-- Witness for C9: declared set {A}, one accepted value, then reset. -/
theorem reset_clears_completeness_and_data_witness :
    ([dataIdA] ≠ ([] : List DataIdentifier)) ∧
    ((foldAccept lastValueHandle (UpdateBuffer.init [dataIdA])
        [(dataIdA, .num 1)]).reset.isComplete = false ∧
     (foldAccept lastValueHandle (UpdateBuffer.init [dataIdA])
        [(dataIdA, .num 1)]).reset.hasAnyData = false) :=
  ⟨by decide,
    reset_clears_completeness_and_data lastValueHandle [dataIdA] [(dataIdA, .num 1)]
      (by decide)⟩

/-- C10: when any exception is raised inside the try-block of
`BaseSender.send` — fetching, decoding or checking — `send` still returns
`UpdateResult(success=False)` instead of propagating, and the send worker
(`SendRunner.__call__` plus `sendJobDone`) still delivers exactly that result
to the originating updater through `notifyUpdateResult`. -/
theorem send_exception_caught_and_notified (u : Updater) (now : Int)
    (fetchResult : Except PyExc (ℕ × String × String))
    (decode : String → Except PyExc String)
    (check : ℕ → String → String → Except PyExc Bool) (e : PyExc)
    (h : sendAttempt fetchResult decode check = .error e) :
    send fetchResult decode check = { success := false } ∧
    sendRunner u now fetchResult decode check
      = (notifyUpdateResult now { success := false } u, { success := false }) := by
  have hs : send fetchResult decode check = { success := false } := by
    unfold send
    rw [h]
  refine ⟨hs, ?_⟩
  unfold sendRunner
  rw [hs]

/-- A fetch attempt that raises (an HTTP transport timeout). -/
def failingFetch : Except PyExc (ℕ × String × String) := .error (.exc "timed out")

/-- A decode stage that succeeds on whatever it is given. -/
def okDecode : String → Except PyExc String := fun s => .ok s

/-- A check stage that succeeds. -/
def okCheck : ℕ → String → String → Except PyExc Bool := fun _ _ _ => .ok true

/-- An updater for the send-failure witness. -/
def witnessUpdater : Updater :=
  baseUpdaterInit scenarioDChannel 10 (UpdateBuffer.init [dataIdA]) .synchronous

/-- Witness for C10: the fetch raises, `send` yields failure and the worker
notifies the updater with it. -/
theorem send_exception_caught_and_notified_witness :
    (sendAttempt failingFetch okDecode okCheck = .error (.exc "timed out")) ∧
    (send failingFetch okDecode okCheck = { success := false } ∧
     sendRunner witnessUpdater 5 failingFetch okDecode okCheck
       = (notifyUpdateResult 5 { success := false } witnessUpdater,
          { success := false })) :=
  ⟨rfl,
    send_exception_caught_and_notified witnessUpdater 5 failingFetch okDecode okCheck
      (.exc "timed out") rfl⟩

/-- The numeric samples an event sequence carries for one identifier: the
values of the events addressed to it that Python `float()` parses (non-numeric
payloads are the ones the average buffer drops). -/
def numericSamples (dataIdentifier : DataIdentifier)
    (events : List (DataIdentifier × Payload)) : List ℚ :=
  (events.filter (fun e => e.1 = dataIdentifier)).filterMap (fun e => pyFloat e.2)

/-- Effect of a batch of accepted samples on a stored average cell: no samples
leave it alone, otherwise they are appended to the stored list (an empty list
replacing `None` first). -/
def mergeCell (c : Option (List ℚ)) (vs : List ℚ) : Option (List ℚ) :=
  match vs with
  | [] => c
  | _ :: _ => some (c.getD [] ++ vs)

theorem mergeCell_cons (c : Option (List ℚ)) (q : ℚ) (vs : List ℚ) :
    mergeCell c (q :: vs) = mergeCell (some (c.getD [] ++ [q])) vs := by
  cases vs with
  | nil => simp [mergeCell]
  | cons v tl => simp [mergeCell]

theorem avg_cell_foldAccept (dataIdentifier : DataIdentifier)
    (events : List (DataIdentifier × Payload)) :
    ∀ (b : UpdateBuffer (List ℚ)) (c : Option (List ℚ)),
      findValue b.dataMapping dataIdentifier = some c →
      findValue (foldAccept averageHandle b events).dataMapping dataIdentifier
        = some (mergeCell c (numericSamples dataIdentifier events)) := by
  induction events with
  | nil =>
      intro b c hc
      simpa [foldAccept, numericSamples, mergeCell] using hc
  | cons e tl ih =>
      intro b c hc
      have hrelid : b.isUpdateRelevant dataIdentifier = true :=
        (isUpdateRelevant_iff_findValue b dataIdentifier).mpr (by simp [hc])
      have hstep : foldAccept averageHandle b (e :: tl)
          = foldAccept averageHandle
              ((UpdateBuffer.updateReceivedDataRun averageHandle e.1 e.2 b).1) tl := rfl
      rw [hstep]
      by_cases hrel : b.isUpdateRelevant e.1 = true
      · have hrun : (UpdateBuffer.updateReceivedDataRun averageHandle e.1 e.2 b).1
            = { b with dataMapping := averageHandle e.1 e.2 b.dataMapping, hasData := true } := by
          simp [UpdateBuffer.updateReceivedDataRun, UpdateBuffer.updateReceivedData, hrel]
        rw [hrun]
        cases hp : pyFloat e.2 with
        | none =>
            have hmap : averageHandle e.1 e.2 b.dataMapping = b.dataMapping := by
              simp [averageHandle, hp]
            have hsam : numericSamples dataIdentifier (e :: tl)
                = numericSamples dataIdentifier tl := by
              by_cases he : e.1 = dataIdentifier <;>
                simp [numericSamples, List.filter_cons, he, hp]
            rw [hsam]
            exact ih _ c (by rw [hmap]; exact hc)
        | some q =>
            by_cases he : e.1 = dataIdentifier
            · have hmap : findValue (averageHandle e.1 e.2 b.dataMapping) dataIdentifier
                  = some (some (c.getD [] ++ [q])) := by
                subst he
                simp [averageHandle, hp, findValue_setCell_self, hc]
              have hsam : numericSamples dataIdentifier (e :: tl)
                  = q :: numericSamples dataIdentifier tl := by
                simp [numericSamples, List.filter_cons, he, hp]
              rw [hsam, mergeCell_cons]
              exact ih _ (some (c.getD [] ++ [q])) hmap
            · have hmap : findValue (averageHandle e.1 e.2 b.dataMapping) dataIdentifier
                  = some c := by
                simpa [averageHandle, hp, findValue_setCell_ne e.1 dataIdentifier he] using hc
              have hsam : numericSamples dataIdentifier (e :: tl)
                  = numericSamples dataIdentifier tl := by
                simp [numericSamples, List.filter_cons, he]
              rw [hsam]
              exact ih _ c hmap
      · have he : e.1 ≠ dataIdentifier := by
          intro hcontra
          rw [hcontra] at hrel
          exact hrel hrelid
        have hrun : (UpdateBuffer.updateReceivedDataRun averageHandle e.1 e.2 b).1 = b := by
          simp [UpdateBuffer.updateReceivedDataRun, UpdateBuffer.updateReceivedData, hrel]
        have hsam : numericSamples dataIdentifier (e :: tl)
            = numericSamples dataIdentifier tl := by
          simp [numericSamples, List.filter_cons, he]
        rw [hrun, hsam]
        exact ih b c hc

/-- C7: for an average buffer, if the events accepted since the last reset
carry the numeric samples v₁ … vₙ (n ≥ 1) for a declared identifier —
non-numeric payloads being dropped — then `getData` yields (v₁ + … + vₙ) / n
for that identifier. -/
theorem averageBuffer_emits_mean (ids : List DataIdentifier)
    (events : List (DataIdentifier × Payload)) (dataIdentifier : DataIdentifier)
    (hmem : dataIdentifier ∈ ids)
    (hne : numericSamples dataIdentifier events ≠ []) :
    findValue (averageGetData (foldAccept averageHandle (UpdateBuffer.init ids) events))
        dataIdentifier
      = some (some ((numericSamples dataIdentifier events).sum
          / ((numericSamples dataIdentifier events).length : ℚ))) := by
  have h0 : findValue (UpdateBuffer.init ids : UpdateBuffer (List ℚ)).dataMapping
      dataIdentifier = some none :=
    findValue_init_mem ids dataIdentifier hmem
  have h1 := avg_cell_foldAccept dataIdentifier events _ none h0
  unfold averageGetData
  rw [findValue_map, h1]
  cases hvs : numericSamples dataIdentifier events with
  | nil => exact absurd hvs hne
  | cons v tl => simp [mergeCell]

/-- Witness for C7: one declared identifier, samples "1", a non-numeric
payload, then "2": the emitted value is (1 + 2) / 2. -/
theorem averageBuffer_emits_mean_witness :
    (dataIdA ∈ [dataIdA]) ∧
    (numericSamples dataIdA
        [(dataIdA, Payload.num 1), (dataIdA, Payload.raw "bad"), (dataIdA, Payload.num 2)]
      ≠ []) ∧
    (findValue (averageGetData (foldAccept averageHandle (UpdateBuffer.init [dataIdA])
        [(dataIdA, Payload.num 1), (dataIdA, Payload.raw "bad"), (dataIdA, Payload.num 2)]))
        dataIdA
      = some (some ((numericSamples dataIdA
            [(dataIdA, Payload.num 1), (dataIdA, Payload.raw "bad"),
              (dataIdA, Payload.num 2)]).sum
          / ((numericSamples dataIdA
            [(dataIdA, Payload.num 1), (dataIdA, Payload.raw "bad"),
              (dataIdA, Payload.num 2)]).length : ℚ)))) :=
  ⟨by decide, by decide,
    averageBuffer_emits_mean [dataIdA] _ dataIdA (by decide) (by decide)⟩

end Mqspeak
